import Mathlib

/-!
Shallow embedding of the GLEIF KERI/ACDC proof-of-concept verifier
(src/verification-service/app.py) together with the artifact shapes produced
by src/did-management/generate-credentials.py.

Modelling conventions:

* JSON dictionaries submitted to the service are modelled by `RawCred`, whose
  fields are `Option`s so that a missing JSON key is representable.
* The external keripy library is an opaque dependency.  Its observable
  behaviour at the call sites used by app.py is modelled as follows:
  - `serderStrict` models `serdering.SerderACDC(sad=credential)`: it succeeds
    iff the required fields are present and the stored said `d` equals the
    said recomputed over the credential body (`computeSaid`, a deterministic
    executable stand-in for the content hash of the library; the body excludes
    `d` and the proof field `p`, matching generate-credentials.py, which
    attaches `p` after the said has been computed).
  - `serderMakify` models `serdering.SerderACDC(sad=credential, makify=True)`:
    it recomputes the said and stores it into `d`, never failing on a said
    mismatch.
  - `validAid` models `coring.Prefixer(qb64=aid)` acceptance and `verferOk`
    models `coring.Verfer(qb64=key)` acceptance, as simple executable format
    checks (correct qb64 length, expected derivation-code initial).
* Filesystem reads are modelled by `Artifacts`: `none` means the file is
  absent, `IncFile.bad` / `CredFile.bad` mean the file exists but its JSON
  fails to parse (so `json.load` raises), and the `good` constructors carry
  the parsed content.
* Code paths of app.py that only log (the habitats.json advisory check, the
  key-state lookups in `resolve_credential_and_issuer` and
  `validate_signatures`) are retained as bound-and-discarded values, since
  they have no observable effect on the returned result.
-/

set_option maxRecDepth 16384

/-- One key-state entry as built by `load_inception_event` in app.py
(`MockKever(aid, [verfer])`): an identifier prefix plus its current public
verification keys. -/
structure Kever where
  pre : String
  verfers : List String
deriving Repr, DecidableEq

/-- The in-memory key-state table `verifier_baser.kevers`: a JSON-dict-like
mapping from identifier to a list of key-state entries. -/
abbrev Table := List (String × List Kever)

/-- Dictionary read, `kevers.get(aid)`: first binding for the key wins. -/
def kvsGet (t : Table) (k : String) : Option (List Kever) :=
  match t with
  | [] => none
  | p :: rest => if p.1 = k then some p.2 else kvsGet rest k

/-- Dictionary write, `kevers[aid] = v`: replaces the binding in place when
the key is present, appends it otherwise (Python dict insertion order). -/
def kvsSet (t : Table) (k : String) (v : List Kever) : Table :=
  match t with
  | [] => [(k, v)]
  | p :: rest => if p.1 = k then (k, v) :: rest else p :: kvsSet rest k v

/-- The attribute block `a` of a credential, as used by the verifier and as
produced by generate-credentials.py (an embedded `issuer` field, an
`issuee`, an `alsoKnownAs` list, plus any further claim pairs). -/
structure Attrs where
  issuer : Option String
  issuee : Option String
  alsoKnownAs : Option (List String)
  extra : List (String × String)
deriving Repr, DecidableEq

/-- A submitted ACDC credential dictionary.  `Option` marks JSON keys that
may be absent.  `p` is the proof/signature material attached by the issuer
pipeline. -/
structure RawCred where
  v : Option String
  d : Option String
  i : Option String
  s : Option String
  a : Option Attrs
  p : Option (List String)
deriving Repr, DecidableEq

/-- Canonical rendering of an optional string used by the said model. -/
def optStr : Option String → String
  | some s => "S" ++ s
  | none => "N"

/-- Canonical rendering of a string list used by the said model. -/
def listStr (l : List String) : String :=
  l.foldl (fun acc x => acc ++ "," ++ x) ""

/-- Canonical rendering of the extra claim pairs used by the said model. -/
def pairsStr (l : List (String × String)) : String :=
  l.foldl (fun acc q => acc ++ ";" ++ q.1 ++ "=" ++ q.2) ""

/-- Canonical rendering of the attribute block used by the said model. -/
def serAttrs : Option Attrs → String
  | none => "N"
  | some a =>
      "issuer:" ++ optStr a.issuer ++ "|issuee:" ++ optStr a.issuee ++
      "|aka:" ++ (match a.alsoKnownAs with
                  | none => "N"
                  | some l => "S" ++ listStr l) ++
      "|extra:" ++ pairsStr a.extra

/-- Canonical serialization of the credential body with the said field
blanked; the proof field `p` is excluded because the issuer pipeline attaches
it only after the said has been computed. -/
def serBody (c : RawCred) : String :=
  "v:" ++ optStr c.v ++ "|i:" ++ optStr c.i ++ "|s:" ++ optStr c.s ++
  "|a:" ++ serAttrs c.a

/-- Deterministic executable digest standing in for the content hash used
by the library. -/
def strHash (s : String) : Nat :=
  s.data.foldl (fun h c => (h * 131 + c.toNat) % 1000000007) 7

/-- Model of the self-addressing-identifier computation of the library over the
credential body. -/
def computeSaid (c : RawCred) : String :=
  "E" ++ toString (strHash (serBody c))

/-- Executable string-prefix test (Python str.startswith), defined by
structural recursion over the character lists. -/
def strStartsWith (s pre : String) : Bool :=
  pre.data.isPrefixOf s.data

/-- Model of `coring.Prefixer(qb64=aid)` acceptance: a well-formed
self-certifying identifier (qb64 length 44, self-addressing code initial). -/
def validAid (a : String) : Bool :=
  strStartsWith a "E" && a.length == 44

/-- Model of `coring.Verfer(qb64=key)` acceptance: a well-formed public-key
string (qb64 length 44, Ed25519 code initial). -/
def verferOk (k : String) : Bool :=
  strStartsWith k "D" && k.length == 44

/-- Model of `serdering.SerderACDC(sad=credential)`: strict parsing verifies
that the version, said, issuee and schema fields are present and that the
stored said matches the recomputed one. -/
def serderStrict (c : RawCred) : Option RawCred :=
  match c.v, c.d, c.i, c.s with
  | some _, some dd, some _, some _ =>
      if dd = computeSaid c then some c else none
  | _, _, _, _ => none

/-- Model of `serdering.SerderACDC(sad=credential, makify=True)`: the said is
recomputed and written into the `d` field, so a said mismatch in the input is
never detected on this path. -/
def serderMakify (c : RawCred) : Option RawCred :=
  match c.v, c.i, c.s with
  | some _, some _, some _ => some { c with d := some (computeSaid c) }
  | _, _, _ => none

/-- The required-field loop and version check of
`validate_credential_structure` (app.py lines 332-339), run over the parsed
`serder.sad`. -/
def structureChecks (sad : RawCred) : Except String RawCred :=
  if sad.v.isNone then .error "Missing required field: v"
  else if sad.d.isNone then .error "Missing required field: d"
  else if sad.i.isNone then .error "Missing required field: i"
  else if sad.s.isNone then .error "Missing required field: s"
  else if sad.a.isNone then .error "Missing required field: a"
  else match sad.v with
       | some vv => if strStartsWith vv "ACDC" then .ok sad
                    else .error "Invalid ACDC version"
       | none => .error "Missing required field: v"

/-- Embedding of `validate_credential_structure` (app.py lines 318-344):
strict parse first, then the makify fallback, then the field and version
checks. -/
def validate_credential_structure (credential : RawCred) : Except String RawCred :=
  match serderStrict credential with
  | some sad => structureChecks sad
  | none =>
      match serderMakify credential with
      | some sad => structureChecks sad
      | none => .error "Invalid credential format"

/-- A parsed inception-event file: the verifier only reads the identifier `i`
and the current-key list `k`. -/
structure IncEvent where
  i : Option String
  k : Option (List String)
deriving Repr, DecidableEq

/-- An inception-record file on disk: `bad` models a file whose JSON fails to
parse (`json.load` raises). -/
inductive IncFile where
  | bad
  | good (e : IncEvent)
deriving Repr, DecidableEq

/-- A credential JSON file on disk, same convention as `IncFile`. -/
inductive CredFile where
  | bad
  | good (c : RawCred)
deriving Repr, DecidableEq

/-- The artifact directory shared between the issuer pipeline and the
verifier: the three inception records (the Legal Entity one stands for the
file reached through habitats.json, `none` when that derivation fails or the
file is absent) and the generated QVI credential. -/
structure Artifacts where
  gleifIncept : Option IncFile
  qviIncept : Option IncFile
  leIncept : Option IncFile
  qviCred : Option CredFile
deriving Repr, DecidableEq

/-- Embedding of `load_inception_event` (app.py lines 138-162): stores the
identifier mapped to a single mock key-state entry holding only the first
element of the key list of the record; any missing field, empty key list or
rejected key encoding raises inside the try block of the function and is
swallowed, leaving the table unchanged. -/
def load_inception_event (t : Table) (e : IncEvent) : Table :=
  match e.i, e.k with
  | some aid, some (k0 :: _) =>
      if verferOk k0 then kvsSet t aid [{ pre := aid, verfers := [k0] }] else t
  | _, _ => t

/-- The sequential per-file blocks of `seed_verifier_database` in list form:
an absent file is skipped, a file whose JSON fails to parse raises out of the
enclosing try and aborts the remaining loads, a parsed file is handed to
`load_inception_event`. -/
def seedList (files : List (Option IncFile)) (t : Table) : Table :=
  match files with
  | [] => t
  | none :: rest => seedList rest t
  | some .bad :: _ => t
  | some (.good e) :: rest => seedList rest (load_inception_event t e)

/-- Embedding of `seed_verifier_database` (app.py lines 93-136): the GLEIF,
QVI and Legal Entity inception files are processed in that fixed order inside
one try block. -/
def seed_verifier_database (fs : Artifacts) (t : Table) : Table :=
  seedList [fs.gleifIncept, fs.qviIncept, fs.leIncept] t

/-- The observable verifier state touched by refresh: the key-state table and
the configured trust-root identifier `GLEIF_ROOT_AID`. -/
structure VState where
  table : Table
  gleifRootAid : String
deriving Repr, DecidableEq

/-- Embedding of `refresh_verifier_state` (app.py lines 68-91): re-reads
gleif-incept.json (a JSON parse failure there raises before seeding, so the
state is returned unchanged), overrides the trust-root identifier when the
file carries a different non-empty `i`, then re-seeds the key states. -/
def refresh_verifier_state (fs : Artifacts) (st : VState) : VState :=
  match fs.gleifIncept with
  | some .bad => st
  | some (.good e) =>
      let root :=
        match e.i with
        | some g => if g ≠ "" ∧ g ≠ st.gleifRootAid then g else st.gleifRootAid
        | none => st.gleifRootAid
      { table := seed_verifier_database fs st.table, gleifRootAid := root }
  | none =>
      { table := seed_verifier_database fs st.table, gleifRootAid := st.gleifRootAid }

/-- Python truthiness for an optional string: `None` and the empty string are
falsy. -/
def pyTruthy : Option String → Bool
  | some s => s != ""
  | none => false

/-- Python `x or y` on optional strings. -/
def pyOr (x y : Option String) : Option String :=
  if pyTruthy x then x else y

/-- The `issuer` field embedded in the credential attributes,
`credential.get(a-key, dict()).get(issuer-key)` in app.py line 369. -/
def credAttrIssuer (c : RawCred) : Option String :=
  match c.a with
  | some at_ => at_.issuer
  | none => none

/-- Fixed stand-in for the text of the exception raised when the strict
credential re-parse inside `resolve_credential_and_issuer` fails. -/
def resolutionErrMsg : String := "Resolution error: credential parse failed"

/-- Embedding of `resolve_credential_and_issuer` (app.py lines 346-429).  The
habitats.json advisory check and the key-state lookup only log, so they are
modelled as discarded reads; every failure of the leading strict re-parse is
caught by the outer except block of the function. -/
def resolve_credential_and_issuer (store : Table) (files : Artifacts)
    (credential : RawCred) (issuer_aid : Option String) : Except String String :=
  match serderStrict credential with
  | none => .error resolutionErrMsg
  | some _ =>
      let r0 := pyOr issuer_aid (credAttrIssuer credential)
      let r1 :=
        if pyTruthy r0 then r0
        else match files.qviCred with
             | some (.good qc) => qc.i
             | _ => r0
      match r1 with
      | none => .error "Unable to determine issuer AID"
      | some aid =>
          if aid = "" then .error "Unable to determine issuer AID"
          else if validAid aid then
            let _ := kvsGet store aid
            .ok aid
          else .error "Invalid issuer AID format"

/-- Embedding of `validate_signatures` (app.py lines 431-471): requires the
proof field to be present and non-empty and the credential to re-parse
strictly; the issuer key-state lookup is read but only logged, and no
signature is ever checked against a key ("skipping detailed cryptographic
verification"). -/
def validate_signatures (store : Table) (credential : RawCred)
    (issuer_aid : String) : Except String (List String) :=
  match credential.p with
  | none => .error "No signature data found"
  | some sigs =>
      match serderStrict credential with
      | none => .error "Signature validation error: credential parse failed"
      | some _ =>
          if sigs.isEmpty then .error "Empty signature data"
          else
            let _ := kvsGet store issuer_aid
            .ok sigs

/-- One entry of the issuance chain returned on success. -/
structure ChainEntry where
  level : String
  aid : String
deriving Repr, DecidableEq

/-- Embedding of `traverse_issuance_chain` (app.py lines 473-510): the chain
is the credential subject, the resolved issuer, and the issuer of the parent
QVI credential read from the artifact store (only when the subject of that
credential equals the resolved issuer). -/
def traverse_issuance_chain (files : Artifacts) (credential : RawCred)
    (issuer_aid : String) : Except String (List ChainEntry) :=
  match credential.i with
  | none => .error "Chain traversal error: missing subject field"
  | some le_aid =>
      let chain : List ChainEntry :=
        [{ level := "Legal Entity", aid := le_aid }, { level := "QVI", aid := issuer_aid }]
      let gleif : Option String :=
        match files.qviCred with
        | some (.good qc) =>
            if qc.i = some issuer_aid then credAttrIssuer qc else none
        | _ => none
      match gleif with
      | some g =>
          if g = "" then
            .error ("Chain traversal failed: Could not find a credential issued to QVI " ++ issuer_aid ++ " in the database.")
          else .ok (chain ++ [{ level := "GLEIF", aid := g }])
      | none =>
          .error ("Chain traversal failed: Could not find a credential issued to QVI " ++ issuer_aid ++ " in the database.")

/-- Embedding of `verify_gleif_root` (app.py lines 512-544): the last chain
entry must be the GLEIF level, its identifier must equal the configured
trust root, and the trust root must have a non-empty key-state entry whose
most recent entry carries at least one public key. -/
def verify_gleif_root (store : Table) (gleif_root_aid : String)
    (chain : List ChainEntry) : Except String Unit :=
  match chain.getLast? with
  | none => .error "Empty issuance chain"
  | some entry =>
      if entry.level ≠ "GLEIF" then .error "Chain does not end with GLEIF"
      else if entry.aid ≠ gleif_root_aid then
        .error ("GLEIF AID mismatch. Expected: " ++ gleif_root_aid ++ ", Got: " ++ entry.aid)
      else
        match kvsGet store gleif_root_aid with
        | none => .error ("GLEIF AID " ++ gleif_root_aid ++ " not found in database")
        | some [] => .error ("GLEIF AID " ++ gleif_root_aid ++ " not found in database")
        | some (k0 :: rest) =>
            if (rest.getLastD k0).verfers.isEmpty then .error "GLEIF AID has no public keys"
            else .ok ()

/-- Outcome of `verify_acdc_credential`: the verified dictionary (said,
resolved issuer, issuance chain) or a rejection carrying the step tag and the
reason string. -/
inductive VerifyOutcome where
  | verified (credential_said : Option String) (issuer_aid : String)
      (issuance_chain : List ChainEntry)
  | rejected (step : String) (reason : String)
deriving Repr, DecidableEq

/-- The optional DID binding check of step 1b (app.py lines 249-256). -/
def didBindingOk (credential : RawCred) (expected_did : Option String) : Bool :=
  match expected_did with
  | none => true
  | some did =>
      match credential.a with
      | some at_ =>
          match at_.alsoKnownAs with
          | some l => l.contains did
          | none => false
      | none => false

/-- Embedding of `verify_acdc_credential` (app.py lines 226-316): the linear
five-stage pipeline with its step tags and reason prefixes. -/
def verify_acdc_credential (store : Table) (files : Artifacts)
    (gleif_root_aid : String) (credential : RawCred)
    (issuer_aid expected_did : Option String) : VerifyOutcome :=
  match validate_credential_structure credential with
  | .error r => .rejected "structure_validation" ("Invalid credential structure: " ++ r)
  | .ok _ =>
      if didBindingOk credential expected_did then
        match resolve_credential_and_issuer store files credential issuer_aid with
        | .error r => .rejected "resolution" ("Failed to resolve credential/issuer: " ++ r)
        | .ok iaid =>
            match validate_signatures store credential iaid with
            | .error r => .rejected "signature_validation" ("Signature validation failed: " ++ r)
            | .ok _ =>
                match traverse_issuance_chain files credential iaid with
                | .error r => .rejected "chain_traversal" ("Issuance chain validation failed: " ++ r)
                | .ok chain =>
                    match verify_gleif_root store gleif_root_aid chain with
                    | .error r => .rejected "gleif_verification" ("GLEIF root verification failed: " ++ r)
                    | .ok _ => .verified credential.d iaid chain
      else .rejected "did_binding" "Expected DID not present in credential.a.alsoKnownAs"

/-- Shape of the JSON body sent back by the `/verify` route, restricted to
the fields the error-handling claims are about. -/
structure HttpResponse where
  status : Nat
  success : Bool
  error : String
deriving Repr, DecidableEq

/-- Embedding of the outer exception handler of `verify_credential` (app.py
lines 219-224): an uncaught exception above the pipeline is logged with full
detail and answered with HTTP 500 whose error field embeds the exception
text after a fixed prefix. -/
def internal_error_response (e : String) : HttpResponse :=
  { status := 500, success := false, error := "Internal server error: " ++ e }

/-- Concrete GLEIF trust-root identifier used by the concrete scenarios. -/
def rootAid : String := String.pushn "E" 'G' 43

/-- Concrete QVI identifier. -/
def qviAid : String := String.pushn "E" 'Q' 43

/-- Concrete Legal Entity identifier. -/
def leAid : String := String.pushn "E" 'L' 43

/-- Concrete GLEIF public key. -/
def gleifKey : String := String.pushn "D" 'G' 43

/-- Concrete QVI public key. -/
def qviKey : String := String.pushn "D" 'Q' 43

/-- Concrete Legal Entity public key. -/
def leKey : String := String.pushn "D" 'L' 43

/-- Concrete GLEIF inception record, as written by generate-credentials.py. -/
def gleifIncEvent : IncEvent := { i := some rootAid, k := some [gleifKey] }

/-- Concrete QVI inception record. -/
def qviIncEvent : IncEvent := { i := some qviAid, k := some [qviKey] }

/-- Concrete Legal Entity inception record. -/
def leIncEvent : IncEvent := { i := some leAid, k := some [leKey] }

/-- Body of the QVI credential (GLEIF to QVI) before the said is filled in:
subject is the QVI, the asserting identifier sits in the attributes. -/
def qviCredBody : RawCred :=
  { v := some "ACDC10JSON00017a_", d := none, i := some qviAid,
    s := some "ESchemaQualifiedVleiIssuer",
    a := some { issuer := some rootAid, issuee := some qviAid,
                alsoKnownAs := none, extra := [("qualified", "true")] },
    p := some ["AAB-gleif-signature"] }

/-- The QVI credential as persisted to qvi-credential.json. -/
def qviCredential : RawCred := { qviCredBody with d := some (computeSaid qviCredBody) }

/-- Body of the Legal Entity credential (QVI to Legal Entity) before the said
is filled in; the issuer is not embedded, matching the generated artifact. -/
def leCredBody : RawCred :=
  { v := some "ACDC10JSON00017a_", d := none, i := some leAid,
    s := some "ESchemaDesignatedAliases",
    a := some { issuer := none, issuee := none,
                alsoKnownAs := some ["did:iota:0xexample"], extra := [] },
    p := some ["AAB-qvi-signature"] }

/-- The Legal Entity credential submitted to the verifier in the concrete
scenario. -/
def leCredential : RawCred := { leCredBody with d := some (computeSaid leCredBody) }

/-- The artifact directory holding all records of the two-level chain. -/
def demoArtifacts : Artifacts :=
  { gleifIncept := some (.good gleifIncEvent), qviIncept := some (.good qviIncEvent),
    leIncept := some (.good leIncEvent), qviCred := some (.good qviCredential) }

/-- The key-state table obtained by seeding from the demo artifacts. -/
def demoStore : Table := seed_verifier_database demoArtifacts []

/-- The issuance chain expected for the concrete two-level scenario. -/
def demoChain : List ChainEntry :=
  [{ level := "Legal Entity", aid := leAid }, { level := "QVI", aid := qviAid },
   { level := "GLEIF", aid := rootAid }]

/-- A Legal Entity credential whose stored said was overwritten with a value
that is not the recomputed said. -/
def tamperedLeCredential : RawCred :=
  { leCredBody with d := some "Etampered-said-value-0000000000000000000000" }

/-- A Legal Entity credential whose attribute block was mutated by one byte
after issuance, so the stored said (computed over the original body) no
longer matches the recomputed one. -/
def mutatedLeCredential : RawCred :=
  { leCredBody with
    a := some { issuer := none, issuee := none,
                alsoKnownAs := some ["did:iota:0xexamplf"], extra := [] },
    d := some (computeSaid leCredBody) }

/-- The Legal Entity credential carrying a syntactically well-formed
signature produced by a key unrelated to any key in the key-state table. -/
def forgedSigLeCredential : RawCred :=
  { leCredBody with
    d := some (computeSaid leCredBody),
    p := some ["AAB-signature-from-unrelated-key"] }

/-- Artifact directory whose GLEIF inception file has unparseable JSON while
the QVI inception file is perfectly well-formed. -/
def malformedSeedArtifacts : Artifacts :=
  { gleifIncept := some .bad, qviIncept := some (.good qviIncEvent),
    leIncept := none, qviCred := none }

/-- An inception record declaring two current keys. -/
def twoKeyEvent : IncEvent := { i := some qviAid, k := some [qviKey, gleifKey] }

/-- A starting verifier state with an empty table and the demo root. -/
def demoVState : VState := { table := [], gleifRootAid := rootAid }

/-- Exception text carrying an internal filesystem path, of the kind an I/O
failure produces. -/
def leakMsg : String := "No such file or directory: /app/verification-service/db"

/-- The effect of `load_inception_event` on a single lookup key: the value it
writes for that key, if any.  It depends only on the event. -/
def loadEffect (e : IncEvent) (k : String) : Option (List Kever) :=
  match e.i, e.k with
  | some aid, some (k0 :: _) =>
      if verferOk k0 ∧ aid = k then some [{ pre := aid, verfers := [k0] }] else none
  | _, _ => none

/-- Left-biased choice on optional key-state values. -/
def optOr (x y : Option (List Kever)) : Option (List Kever) :=
  match x with
  | some v => some v
  | none => y

/-- The effect of a whole seeding pass on a single lookup key, including the
abort caused by an unparseable file. -/
def seedEffect : List (Option IncFile) → String → Option (List Kever)
  | [], _ => none
  | none :: rest, k => seedEffect rest k
  | some .bad :: _, _ => none
  | some (.good e) :: rest, k => optOr (seedEffect rest k) (loadEffect e k)

/-- The subject field of the QVI credential in the artifact store, when that
file exists and parses. -/
def qviCredSubject (files : Artifacts) : Option String :=
  match files.qviCred with
  | some (.good qc) => qc.i
  | _ => none

/-- The three issuer sources in the priority order the claim states:
caller-supplied override, `issuer` embedded in the attributes, subject of the
parent QVI credential. -/
def issuerSources (files : Artifacts) (c : RawCred) (ia : Option String) :
    List (Option String) :=
  [ia, credAttrIssuer c, qviCredSubject files]

/-- First source that yields a truthy value, if any. -/
def firstTruthy (l : List (Option String)) : Option String :=
  match l.find? pyTruthy with
  | some o => o
  | none => none

/-- The trust root has a published key state: a non-empty entry whose most
recent key-state record carries at least one public key. -/
def rootHasPublishedKeys (store : Table) (root : String) : Bool :=
  match kvsGet store root with
  | none => false
  | some [] => false
  | some (k0 :: rest) => !(rest.getLastD k0).verfers.isEmpty

/-- One table entry holds exactly one key-state record with exactly one
public key. -/
def entryOneKey (q : String × List Kever) : Bool :=
  match q.2 with
  | [kv] => kv.verfers.length == 1
  | _ => false

/-- Every entry of the table holds exactly one public key. -/
def oneKeyPerEntry (t : Table) : Bool :=
  t.all entryOneKey

/-- C1: the claim says a credential signed by a key not present in the
key-state entry of the resolved issuer is rejected with SignatureInvalid at step
signature_validation.  The code instead approves any non-empty signature
list: for the concrete credential carrying a well-formed signature from an
unrelated key, `validate_signatures` succeeds for every key-state table
whatsoever, so the stage result cannot depend on whether the signing key is
known for the issuer. -/
theorem c1_signature_stage_accepts_unknown_key (store : Table) :
    validate_signatures store forgedSigLeCredential qviAid =
      .ok ["AAB-signature-from-unrelated-key"] := rfl

/-- C2 counterexample: for the credential whose attribute block was mutated
by one byte after issuance (so its stored said no longer matches the
recomputed one), `verify` rejects at step resolution, not at step
structure_validation, and the structure-validation stage itself accepts the
credential because the makify fallback recomputes the said. -/
theorem c2_mutated_said_not_rejected_at_structure :
    verify_acdc_credential demoStore demoArtifacts rootAid mutatedLeCredential none none =
      .rejected "resolution"
        ("Failed to resolve credential/issuer: " ++ resolutionErrMsg)
    ∧ validate_credential_structure mutatedLeCredential =
        .ok { mutatedLeCredential with d := some (computeSaid mutatedLeCredential) }
    ∧ mutatedLeCredential.d ≠ some (computeSaid mutatedLeCredential) :=
  ⟨rfl, rfl, by decide⟩

/-- C3 counterexample: the claim says rejection at step resolution happens if
and only if no issuer source yields a value or the value is malformed.  For
the concrete said-mismatched credential submitted with a well-formed
caller-supplied issuer override, every source yields the well-formed QVI
identifier and yet `verify` rejects at step resolution, because the stage
first re-parses the credential strictly and that parse fails. -/
theorem c3_resolution_rejects_despite_valid_sources :
    verify_acdc_credential demoStore demoArtifacts rootAid tamperedLeCredential
        (some qviAid) none =
      .rejected "resolution"
        ("Failed to resolve credential/issuer: " ++ resolutionErrMsg)
    ∧ firstTruthy (issuerSources demoArtifacts tamperedLeCredential (some qviAid)) =
        some qviAid
    ∧ validAid qviAid = true :=
  ⟨rfl, rfl, by decide⟩

/-- C5 counterexample: the claim says a malformed inception file is logged
and skipped and every other well-formed record is still loaded.  When the
GLEIF inception file fails JSON parsing, the raised exception escapes to the
outer handler of `seed_verifier_database` and the perfectly well-formed QVI
record is not loaded, although it loads fine once the malformed file is
absent. -/
theorem c5_bad_json_aborts_whole_load :
    kvsGet (seed_verifier_database malformedSeedArtifacts []) qviAid = none
    ∧ kvsGet (seed_verifier_database
          { malformedSeedArtifacts with gleifIncept := none } []) qviAid =
        some [{ pre := qviAid, verfers := [qviKey] }] :=
  ⟨rfl, rfl⟩

/-- C6 counterexample: the claim says the HTTP 500 body contains only a
generic message and never exposes internal detail such as exception text or
file paths.  For an exception whose text carries an internal filesystem
path, the response body ends with that very text. -/
theorem c6_internal_error_leaks_exception_text :
    (internal_error_response leakMsg).status = 500
    ∧ (internal_error_response leakMsg).success = false
    ∧ (internal_error_response leakMsg).error =
        "Internal server error: No such file or directory: /app/verification-service/db"
    ∧ List.IsSuffix leakMsg.data (internal_error_response leakMsg).error.data
    ∧ leakMsg ≠ "" :=
  ⟨rfl, rfl, rfl, ⟨"Internal server error: ".data, rfl⟩, by decide⟩

/-- C6 amended: the 500 response to an uncaught internal exception has a
fixed generic prefix but embeds the exception text after it, so exception
text (which may include internal paths) is exposed to the caller; only the
stack trace stays confined to the logs. -/
theorem c6_internal_error_embeds_message (m : String) :
    internal_error_response m =
      { status := 500, success := false, error := "Internal server error: " ++ m }
    ∧ List.IsSuffix m.data (internal_error_response m).error.data := by
  refine ⟨rfl, ⟨"Internal server error: ".data, ?_⟩⟩
  show "Internal server error: ".data ++ m.data = ("Internal server error: " ++ m).data
  cases m with
  | mk l => rfl

/-- C8: in the concrete two-level setup (root R, intermediate Q holding the
credential issued by R, leaf L holding the credential issued by Q, trust
root configured as R, all artifacts present), `verify` on the leaf
credential returns Verified and the issuance chain is the ordered sequence
L, Q, R from subject up to root. -/
theorem c8_concrete_two_level_chain_verifies :
    verify_acdc_credential demoStore demoArtifacts rootAid leCredential none none =
      .verified (some (computeSaid leCredBody)) qviAid demoChain := rfl

/-- Lookup after a dictionary write: the written key returns the new value,
every other key is unaffected. -/
theorem kvsGet_kvsSet (t : Table) (a k : String) (v : List Kever) :
    kvsGet (kvsSet t a v) k = if a = k then some v else kvsGet t k := by
  induction t with
  | nil => by_cases h : a = k <;> simp [kvsSet, kvsGet, h]
  | cons q rest ih =>
    by_cases hq : q.1 = a <;> by_cases hak : a = k <;> by_cases hqk : q.1 = k <;>
      simp_all [kvsSet, kvsGet]

/-- Lookup after loading one inception event is the effect of the event,
falling back to the previous table. -/
theorem kvsGet_load (t : Table) (e : IncEvent) (k : String) :
    kvsGet (load_inception_event t e) k = optOr (loadEffect e k) (kvsGet t k) := by
  obtain ⟨ei, ek⟩ := e
  cases ei with
  | none => rfl
  | some aid =>
    cases ek with
    | none => rfl
    | some ks =>
      cases ks with
      | nil => rfl
      | cons k0 rest2 =>
        by_cases hv : verferOk k0
        · by_cases ha : aid = k <;>
            simp [load_inception_event, loadEffect, hv, ha, kvsGet_kvsSet, optOr]
        · simp [load_inception_event, loadEffect, hv, optOr]

/-- Lookup after a full seeding pass is the effect of the pass, falling back to
the previous table. -/
theorem kvsGet_seedList (files : List (Option IncFile)) (t : Table) (k : String) :
    kvsGet (seedList files t) k = optOr (seedEffect files k) (kvsGet t k) := by
  induction files generalizing t with
  | nil => rfl
  | cons f rest ih =>
    cases f with
    | none => simp [seedList, seedEffect, ih]
    | some ff =>
      cases ff with
      | bad => rfl
      | good e =>
        simp only [seedList, seedEffect, ih, kvsGet_load]
        cases seedEffect rest k <;> simp [optOr]

/-- Re-applying the same effect on the left is absorbed. -/
theorem optOr_left_absorb (a b : Option (List Kever)) :
    optOr a (optOr a b) = optOr a b := by
  cases a <;> rfl

/-- C7: refresh is idempotent on the observable verifier state.  With an
unchanged artifact directory, running `refresh_verifier_state` twice yields
the same lookup result for every identifier and the same trust-root
identifier as running it once. -/
theorem c7_refresh_idempotent (fs : Artifacts) (st : VState) (aid : String) :
    kvsGet (refresh_verifier_state fs (refresh_verifier_state fs st)).table aid =
      kvsGet (refresh_verifier_state fs st).table aid
    ∧ (refresh_verifier_state fs (refresh_verifier_state fs st)).gleifRootAid =
      (refresh_verifier_state fs st).gleifRootAid := by
  obtain ⟨fg, fq, fl, fqc⟩ := fs
  cases fg with
  | none =>
    refine ⟨?_, rfl⟩
    simp [refresh_verifier_state, seed_verifier_database, kvsGet_seedList, optOr_left_absorb]
  | some ff =>
    cases ff with
    | bad => exact ⟨rfl, rfl⟩
    | good e =>
      refine ⟨?_, ?_⟩
      · simp [refresh_verifier_state, seed_verifier_database, kvsGet_seedList, optOr_left_absorb]
      · simp only [refresh_verifier_state]
        cases he : e.i with
        | none => rfl
        | some g2 =>
          by_cases hg : g2 = ""
          · simp [hg]
          · by_cases hr : g2 = st.gleifRootAid <;> simp [hg, hr]

/-- One-key invariant is preserved by a dictionary write of a one-key
value. -/
theorem oneKey_kvsSet (t : Table) (a : String) (v : List Kever)
    (hv : entryOneKey (a, v) = true) :
    oneKeyPerEntry t = true → oneKeyPerEntry (kvsSet t a v) = true := by
  induction t with
  | nil => intro _; simp [kvsSet, oneKeyPerEntry, hv]
  | cons q rest ih =>
    intro ht
    simp only [oneKeyPerEntry, List.all_cons, Bool.and_eq_true] at ht
    by_cases hq : q.1 = a
    · simp [kvsSet, hq, oneKeyPerEntry, hv, ht.2]
    · have hrest := ih ht.2
      simp only [oneKeyPerEntry] at hrest
      simp [kvsSet, hq, oneKeyPerEntry, ht.1, hrest]

/-- One-key invariant is preserved by loading an inception event. -/
theorem oneKey_load (t : Table) (e : IncEvent) :
    oneKeyPerEntry t = true → oneKeyPerEntry (load_inception_event t e) = true := by
  intro ht
  obtain ⟨ei, ek⟩ := e
  cases ei with
  | none => exact ht
  | some aid =>
    cases ek with
    | none => exact ht
    | some ks =>
      cases ks with
      | nil => exact ht
      | cons k0 r =>
        by_cases hv : verferOk k0
        · simpa [load_inception_event, hv] using
            oneKey_kvsSet t aid [{ pre := aid, verfers := [k0] }] rfl ht
        · simpa [load_inception_event, hv] using ht

/-- One-key invariant is preserved by a whole seeding pass. -/
theorem oneKey_seedList (files : List (Option IncFile)) (t : Table) :
    oneKeyPerEntry t = true → oneKeyPerEntry (seedList files t) = true := by
  induction files generalizing t with
  | nil => exact id
  | cons f rest ih =>
    intro ht
    cases f with
    | none => exact ih t ht
    | some ff =>
      cases ff with
      | bad => exact ht
      | good e => exact ih _ (oneKey_load t e ht)

/-- C10: only the first element of the key list `k` of an inception record is
stored, and after any load or refresh the entry of every identifier in the
key-state table holds exactly one public key, even when the record declares
several current keys. -/
theorem c10_only_first_key_stored (t : Table) (e : IncEvent) (fs : Artifacts)
    (st : VState) :
    (oneKeyPerEntry t = true → oneKeyPerEntry (load_inception_event t e) = true)
    ∧ (oneKeyPerEntry st.table = true →
        oneKeyPerEntry (refresh_verifier_state fs st).table = true)
    ∧ (∀ aid k0 ks, e.i = some aid → e.k = some (k0 :: ks) → verferOk k0 = true →
        kvsGet (load_inception_event t e) aid =
          some [{ pre := aid, verfers := [k0] }]) := by
  refine ⟨oneKey_load t e, ?_, ?_⟩
  · intro ht
    obtain ⟨fg, fq, fl, fqc⟩ := fs
    cases fg with
    | none => exact oneKey_seedList _ _ ht
    | some ff =>
      cases ff with
      | bad => exact ht
      | good e2 => exact oneKey_seedList _ _ ht
  · intro aid k0 ks hi hk hv
    obtain ⟨ei, ek⟩ := e
    simp only at hi hk
    subst hi; subst hk
    simp [load_inception_event, hv, kvsGet_kvsSet]

/-- C10 witness: for a concrete inception record declaring two current keys,
the table stores exactly one key, namely the first of the two. -/
theorem c10_witness :
    oneKeyPerEntry (load_inception_event [] twoKeyEvent) = true
    ∧ kvsGet (load_inception_event [] twoKeyEvent) qviAid =
        some [{ pre := qviAid, verfers := [qviKey] }] :=
  ⟨(c10_only_first_key_stored [] twoKeyEvent demoArtifacts demoVState).1 rfl,
   (c10_only_first_key_stored [] twoKeyEvent demoArtifacts demoVState).2.2
     qviAid qviKey [gleifKey] rfl rfl (by decide)⟩

/-- Every chain returned by a successful traversal has the fixed three-entry
shape: the credential subject, the resolved issuer, the embedded issuer of
the parent credential. -/
theorem traverse_ok_shape (files : Artifacts) (c : RawCred) (ia : String)
    (chain : List ChainEntry)
    (h : traverse_issuance_chain files c ia = .ok chain) :
    ∃ le g, chain = [{ level := "Legal Entity", aid := le },
                     { level := "QVI", aid := ia },
                     { level := "GLEIF", aid := g }] := by
  cases hci : c.i with
  | none => simp [traverse_issuance_chain, hci] at h
  | some le =>
    cases hqc : files.qviCred with
    | none => simp [traverse_issuance_chain, hci, hqc] at h
    | some ff =>
      cases ff with
      | bad => simp [traverse_issuance_chain, hci, hqc] at h
      | good qc =>
        by_cases hsub : qc.i = some ia
        · cases hg : credAttrIssuer qc with
          | none => simp [traverse_issuance_chain, hci, hqc, hsub, hg] at h
          | some g =>
            by_cases hge : g = ""
            · simp [traverse_issuance_chain, hci, hqc, hsub, hg, hge] at h
            · simp [traverse_issuance_chain, hci, hqc, hsub, hg, hge] at h
              exact ⟨le, g, h.symm⟩
        · simp [traverse_issuance_chain, hci, hqc, hsub] at h

/-- C4: for every chain produced by the traversal stage, the root
verification stage passes exactly when the top-of-chain identifier equals
the configured trust root and the trust root has a published key state (a
non-empty key-state entry whose most recent record carries at least one
key); it rejects in precisely the remaining cases. -/
theorem c4_root_stage_exact (store : Table) (root : String) (files : Artifacts)
    (c : RawCred) (ia : String) (chain : List ChainEntry)
    (h : traverse_issuance_chain files c ia = .ok chain) :
    verify_gleif_root store root chain = .ok () ↔
      ((chain.getLastD { level := "", aid := "" }).aid = root
        ∧ rootHasPublishedKeys store root = true) := by
  obtain ⟨le, g, rfl⟩ := traverse_ok_shape files c ia chain h
  by_cases hg : g = root
  · subst hg
    cases hk : kvsGet store g with
    | none => simp [verify_gleif_root, rootHasPublishedKeys, hk]
    | some ks =>
      cases ks with
      | nil => simp [verify_gleif_root, rootHasPublishedKeys, hk]
      | cons k0 rest =>
        by_cases he : (rest.getLastD k0).verfers.isEmpty = true <;>
          simp [verify_gleif_root, rootHasPublishedKeys, hk, he]
  · simp [verify_gleif_root, rootHasPublishedKeys, hg]

/-- C4 witness: the characterization instantiated on the concrete two-level
scenario, where the traversal hypothesis is discharged by computation. -/
theorem c4_witness :
    traverse_issuance_chain demoArtifacts leCredential qviAid = .ok demoChain
    ∧ (verify_gleif_root demoStore rootAid demoChain = .ok () ↔
        ((demoChain.getLastD { level := "", aid := "" }).aid = rootAid
          ∧ rootHasPublishedKeys demoStore rootAid = true)) :=
  ⟨rfl, c4_root_stage_exact demoStore rootAid demoArtifacts leCredential qviAid
    demoChain rfl⟩

/-- C9: whenever verification succeeds, the returned issuance chain has
exactly three entries whose role labels are, in order, Legal Entity, QVI and
GLEIF; no successful run can produce any other length or labeling. -/
theorem c9_success_chain_labels (store : Table) (files : Artifacts)
    (root : String) (c : RawCred) (ia ed : Option String) (sd : Option String)
    (isr : String) (chain : List ChainEntry)
    (h : verify_acdc_credential store files root c ia ed = .verified sd isr chain) :
    chain.map ChainEntry.level = ["Legal Entity", "QVI", "GLEIF"] := by
  unfold verify_acdc_credential at h
  cases h1 : validate_credential_structure c with
  | error r => simp [h1] at h
  | ok sad =>
    simp only [h1] at h
    by_cases hb : didBindingOk c ed = true
    · simp only [hb, if_true] at h
      cases h2 : resolve_credential_and_issuer store files c ia with
      | error r => simp [h2] at h
      | ok iaid =>
        simp only [h2] at h
        cases h3 : validate_signatures store c iaid with
        | error r => simp [h3] at h
        | ok sigs =>
          simp only [h3] at h
          cases h4 : traverse_issuance_chain files c iaid with
          | error r => simp [h4] at h
          | ok ch =>
            simp only [h4] at h
            cases h5 : verify_gleif_root store root ch with
            | error r => simp [h5] at h
            | ok u =>
              simp only [h5] at h
              obtain ⟨le, g, rfl⟩ := traverse_ok_shape files c iaid ch h4
              cases h
              rfl
    · simp [if_neg hb] at h

/-- C9 witness: the label theorem applied to the concrete successful
verification run. -/
theorem c9_witness :
    demoChain.map ChainEntry.level = ["Legal Entity", "QVI", "GLEIF"] :=
  c9_success_chain_labels demoStore demoArtifacts rootAid leCredential none none
    (some (computeSaid leCredBody)) qviAid demoChain rfl

/-- C2 amended: a credential whose stored said differs from the recomputed
one (for instance after a single-byte mutation of any attribute) is still
rejected by `verify`, but at step resolution — the strict re-parse inside
issuer resolution fails — rather than at step structure_validation with
InvalidStructure, because the makify fallback of the structure stage recomputes
the said instead of checking it. -/
theorem c2_said_mismatch_rejected_at_resolution (store : Table)
    (files : Artifacts) (root : String) (c : RawCred) (ia : Option String)
    (vv : String) (hv : c.v = some vv) (hacdc : strStartsWith vv "ACDC" = true)
    (hi : c.i.isSome = true) (hs : c.s.isSome = true) (ha : c.a.isSome = true)
    (hd : c.d ≠ some (computeSaid c)) :
    verify_acdc_credential store files root c ia none =
      .rejected "resolution"
        ("Failed to resolve credential/issuer: " ++ resolutionErrMsg) := by
  obtain ⟨cv, cd, ci, cs, ca, cp⟩ := c
  simp only at hv hi hs ha hd
  subst hv
  cases ci with
  | none => simp at hi
  | some civ =>
    cases cs with
    | none => simp at hs
    | some csv =>
      cases ca with
      | none => simp at ha
      | some cav =>
        cases cd with
        | none =>
          simp [verify_acdc_credential, validate_credential_structure,
            serderStrict, serderMakify, structureChecks, hacdc, didBindingOk,
            resolve_credential_and_issuer]
        | some dd =>
          have hdd : ¬(dd = computeSaid
              { v := some vv, d := some dd, i := some civ, s := some csv,
                a := some cav, p := cp }) := by
            intro hEq
            exact hd (congrArg some hEq)
          simp [verify_acdc_credential, validate_credential_structure,
            serderStrict, serderMakify, structureChecks, hacdc, didBindingOk,
            resolve_credential_and_issuer, hdd]

/-- C2 witness: the amended theorem applied to the concrete credential whose
stored said was overwritten. -/
theorem c2_witness :
    verify_acdc_credential demoStore demoArtifacts rootAid tamperedLeCredential
        none none =
      .rejected "resolution"
        ("Failed to resolve credential/issuer: " ++ resolutionErrMsg) :=
  c2_said_mismatch_rejected_at_resolution demoStore demoArtifacts rootAid
    tamperedLeCredential none "ACDC10JSON00017a_" rfl (by decide) rfl rfl rfl
    (by decide)

/-- C5 amended: a file with parseable JSON but malformed content (missing
identifier or key field, empty key list, or a key the library rejects) is
skipped exactly as if the file were absent and every other record still
loads; a file whose JSON fails to parse, however, aborts the remainder of
the load, keeping only the records of files processed before it in the
fixed GLEIF, QVI, Legal Entity order. -/
theorem c5_soft_fail_scope (eg : IncEvent) (fq fl : Option IncFile)
    (qc : Option CredFile) (t : Table) (eg2 : IncEvent) :
    ((eg.i = none ∨ eg.k = none ∨ eg.k = some []
        ∨ ∃ k0 ks, eg.k = some (k0 :: ks) ∧ verferOk k0 = false) →
      seed_verifier_database
          { gleifIncept := some (.good eg), qviIncept := fq,
            leIncept := fl, qviCred := qc } t =
        seed_verifier_database
          { gleifIncept := none, qviIncept := fq,
            leIncept := fl, qviCred := qc } t)
    ∧ seed_verifier_database
        { gleifIncept := some .bad, qviIncept := fq,
          leIncept := fl, qviCred := qc } t = t
    ∧ seed_verifier_database
        { gleifIncept := some (.good eg2), qviIncept := some .bad,
          leIncept := fl, qviCred := qc } t = load_inception_event t eg2 := by
  refine ⟨?_, rfl, rfl⟩
  intro hbad
  have hskip : load_inception_event t eg = t := by
    obtain ⟨ei, ek⟩ := eg
    simp only at hbad
    rcases hbad with h | h | h | ⟨k0, ks, hk, hv⟩
    · subst h; rfl
    · subst h; cases ei <;> rfl
    · subst h; cases ei <;> rfl
    · subst hk
      cases ei with
      | none => rfl
      | some aid => simp [load_inception_event, hv]
  simp [seed_verifier_database, seedList, hskip]

/-- C5 witness: the amended theorem applied to a concrete directory whose
GLEIF record lacks its identifier field while the QVI record is
well-formed. -/
theorem c5_witness :
    seed_verifier_database
        { gleifIncept := some (.good { i := none, k := some [qviKey] }),
          qviIncept := some (.good qviIncEvent), leIncept := none,
          qviCred := none } [] =
      seed_verifier_database
        { gleifIncept := none, qviIncept := some (.good qviIncEvent),
          leIncept := none, qviCred := none } [] :=
  (c5_soft_fail_scope { i := none, k := some [qviKey] }
    (some (.good qviIncEvent)) none none [] qviIncEvent).1 (Or.inl rfl)

/-- First-truthy of the empty source list. -/
theorem firstTruthy_nil : firstTruthy [] = none := rfl

/-- First-truthy peels one source. -/
theorem firstTruthy_cons (o : Option String) (rest : List (Option String)) :
    firstTruthy (o :: rest) = if pyTruthy o then o else firstTruthy rest := by
  cases h : pyTruthy o <;> simp [firstTruthy, List.find?, h]

/-- First-truthy over the three issuer sources, as nested conditionals. -/
theorem firstTruthy_sources (files : Artifacts) (c : RawCred)
    (ia : Option String) :
    firstTruthy (issuerSources files c ia) =
      (if pyTruthy ia then ia
       else if pyTruthy (credAttrIssuer c) then credAttrIssuer c
       else if pyTruthy (qviCredSubject files) then qviCredSubject files
       else none) := by
  simp [issuerSources, firstTruthy_cons, firstTruthy_nil]

/-- A truthy optional string is a non-empty some. -/
theorem pyTruthy_iff (o : Option String) :
    pyTruthy o = true ↔ ∃ s, o = some s ∧ s ≠ "" := by
  cases o with
  | none => simp [pyTruthy]
  | some s => simp [pyTruthy, bne_iff_ne]

/-- Truthiness of an absent value. -/
theorem pyTruthy_none : pyTruthy none = false := rfl

/-- Truthiness of the empty string. -/
theorem pyTruthy_some_empty : pyTruthy (some "") = false := rfl

/-- Once the strict re-parse succeeds, the resolution stage is exactly the
first-truthy-source computation followed by the identifier format check. -/
theorem resolve_eq_firstTruthy (store : Table) (files : Artifacts)
    (c : RawCred) (ia : Option String) (sad : RawCred)
    (hst : serderStrict c = some sad) :
    resolve_credential_and_issuer store files c ia =
      (match firstTruthy (issuerSources files c ia) with
       | none => .error "Unable to determine issuer AID"
       | some b =>
           if validAid b then .ok b else .error "Invalid issuer AID format") := by
  simp only [resolve_credential_and_issuer, hst, firstTruthy_sources]
  cases hB1 : pyTruthy ia with
  | true =>
    obtain ⟨s, hsi, hsne⟩ := (pyTruthy_iff ia).mp hB1
    subst hsi
    simp [pyOr, hB1, hsne]
  | false =>
    have hg1 : pyOr ia (credAttrIssuer c) = credAttrIssuer c := by
      simp [pyOr, hB1]
    cases hB2 : pyTruthy (credAttrIssuer c) with
    | true =>
      obtain ⟨s, hsi, hsne⟩ := (pyTruthy_iff _).mp hB2
      have hB2s : pyTruthy (some s) = true := hsi ▸ hB2
      have hg1s : pyOr ia (some s) = some s := hsi ▸ hg1
      simp [hsi, hg1s, hB1, hB2s, hsne]
    | false =>
      have hattrFalsy : credAttrIssuer c = none ∨ credAttrIssuer c = some "" := by
        cases hattr : credAttrIssuer c with
        | none => exact Or.inl rfl
        | some s2 =>
          rcases eq_or_ne s2 "" with h | h
          · exact Or.inr (by rw [h])
          · have htr := (pyTruthy_iff (some s2)).mpr ⟨s2, rfl, h⟩
            rw [hattr] at hB2
            simp [htr] at hB2
      have hg0 : ∀ x, credAttrIssuer c = x → pyOr ia x = x :=
        fun x hx => hx ▸ hg1
      cases hqc : files.qviCred with
      | none =>
        rcases hattrFalsy with h | h <;>
          simp [hB1, hB2, hqc, h, hg0 _ h, qviCredSubject, pyTruthy_none,
            pyTruthy_some_empty]
      | some ff =>
        cases ff with
        | bad =>
          rcases hattrFalsy with h | h <;>
            simp [hB1, hB2, hqc, h, hg0 _ h, qviCredSubject, pyTruthy_none,
              pyTruthy_some_empty]
        | good qc =>
          cases hqi : qc.i with
          | none =>
            rcases hattrFalsy with h | h <;>
              simp [hB1, hB2, hqc, hqi, h, hg0 _ h, qviCredSubject,
                pyTruthy_none, pyTruthy_some_empty]
          | some s3 =>
            rcases eq_or_ne s3 "" with h3 | h3
            · subst h3
              rcases hattrFalsy with h | h <;>
                simp [hB1, hB2, hqc, hqi, h, hg0 _ h, qviCredSubject,
                  pyTruthy_none, pyTruthy_some_empty]
            · have htr3 : pyTruthy (some s3) = true :=
                (pyTruthy_iff (some s3)).mpr ⟨s3, rfl, h3⟩
              rcases hattrFalsy with h | h <;>
                simp [hB1, hB2, hqc, hqi, h, hg0 _ h, qviCredSubject, htr3,
                  h3, pyTruthy_none, pyTruthy_some_empty]

/-- C3 amended: once a credential reaches the resolution stage, resolution
succeeds with identifier a exactly when the strict re-parse succeeds, the
first truthy source among caller-supplied override, attribute-embedded
issuer and parent-credential subject (in that priority order) yields a, and
a is well-formed; it rejects exactly when the strict re-parse fails (a said
mismatch admitted by the makify fallback of the structure stage), no source
yields a value, or the first yielded value is malformed. -/
theorem c3_resolution_iff (store : Table) (files : Artifacts) (c : RawCred)
    (ia : Option String) :
    (∀ a : String,
      resolve_credential_and_issuer store files c ia = .ok a ↔
        ((serderStrict c).isSome = true
          ∧ firstTruthy (issuerSources files c ia) = some a
          ∧ validAid a = true))
    ∧ ((∃ m, resolve_credential_and_issuer store files c ia = .error m) ↔
        (serderStrict c = none
          ∨ firstTruthy (issuerSources files c ia) = none
          ∨ ∃ b, firstTruthy (issuerSources files c ia) = some b
              ∧ validAid b = false)) := by
  cases hst : serderStrict c with
  | none =>
    constructor
    · intro a
      simp [resolve_credential_and_issuer, hst]
    · simp [resolve_credential_and_issuer, hst]
  | some sad =>
    rw [resolve_eq_firstTruthy store files c ia sad hst]
    constructor
    · intro a
      cases hft : firstTruthy (issuerSources files c ia) with
      | none => simp [hst]
      | some b =>
        by_cases hv : validAid b = true
        · simp only [hv, if_true]
          constructor
          · rintro h
            cases h
            exact ⟨by simp [hst], rfl, hv⟩
          · rintro ⟨-, hba, -⟩
            cases hba
            rfl
        · dsimp only
          rw [if_neg hv]
          constructor
          · intro h
            exact absurd h (by simp)
          · rintro ⟨-, hba, hva⟩
            injection hba with hba2
            subst hba2
            exact absurd hva hv
    · cases hft : firstTruthy (issuerSources files c ia) with
      | none => simp [hst]
      | some b =>
        by_cases hv : validAid b = true
        · simp [hst, hv]
        · simp [hst, hv]
